import Mathlib

/-!
Verification of the SCM risk-optimization engine (src/app.py).

The engine's arithmetic (Python floats) is modelled exactly over an
arbitrary linear ordered field with a floor; concrete evaluation is
carried out at `ℚ`, while the dashboard pipeline (which includes the
sample standard deviation, a real square root) is modelled at `ℝ`.
Dates are modelled as day numbers (`ℤ`), so `date_diff('day', a, b)`
is `b - a`.
-/

namespace SCM

/-- One row of `get_demand_data` (src/app.py lines 84-91): a calendar
month key and the total ordered quantity for that month. -/
structure MonthlyDemand (α : Type) where
  month : String
  qty : α
  deriving DecidableEq

/-- The dictionary returned by `analyze_risk` (src/app.py line 78):
mean and standard deviation of the actual lead times. -/
structure RiskData (α : Type) where
  avg : α
  std : α
  deriving DecidableEq

/-- The dictionary returned by `get_product_details` (src/app.py
lines 57-59): the Products ⋈ Suppliers row for one product. -/
structure Details (α : Type) where
  name : String
  stock : α
  safety_stock : α
  price : α
  supplier : String
  contract_lead_time : α
  deriving DecidableEq

/-- The dictionary returned by `run_optimization` (src/app.py
lines 116-120). `rec_safety_stock` is a Python `int`; every other
field is a float. -/
structure OptimizationResult (α : Type) where
  daily_demand : α
  score : α
  rec_safety_stock : ℤ
  rop : α
  actual_lt : α
  variance : α
  deriving DecidableEq

/-- One joined Orders row as read by the query in `analyze_risk`
(src/app.py lines 67-73): the order date and the shipped date, which
is absent (`NULL`) for undelivered orders. Dates are day numbers. -/
structure ShipmentRecord where
  order : ℤ
  shipped : Option ℤ
  deriving DecidableEq

variable {α : Type} [LinearOrderedField α] [FloorRing α]

/-- Python `int(x)`: truncation toward zero. For `x ≥ 0` it agrees
with `⌊x⌋` (round down). -/
def pyInt (x : α) : ℤ :=
  if 0 ≤ x then ⌊x⌋ else -⌊-x⌋

/-- src/app.py line 95: `daily_demand = sales_df['Qty'].mean() / 30.0`.
The mean is over exactly the rows the demand query returned (one per
month that had orders). -/
def dailyDemand (sales : List (MonthlyDemand α)) : α :=
  ((sales.map (fun r => r.qty)).sum / (sales.length : α)) / 30

/-- src/app.py lines 94-120, `run_optimization`. The constant 1.65 is
written `165 / 100`. The source reassigns `rec_safety_stock`; here the
first value is `rec_ss0` and the reassigned one `rec_ss`. -/
def run_optimization (sales : List (MonthlyDemand α)) (risk : RiskData α)
    (details : Details α) : OptimizationResult α :=
  let daily_demand := dailyDemand sales
  let contract_lt := details.contract_lead_time
  let actual_lt := risk.avg
  let lt_variance := risk.std
  let delay_penalty := max 0 (actual_lt - contract_lt) * 10
  let variance_penalty := lt_variance * 5
  let score := max 0 (100 - (delay_penalty + variance_penalty))
  let rec_ss0 := pyInt ((daily_demand * actual_lt) + ((165 : α) / 100 * lt_variance * daily_demand))
  let rec_ss := max rec_ss0 (pyInt (daily_demand * 2))
  let risk_adjusted_rop := (daily_demand * actual_lt) + (rec_ss : α)
  { daily_demand := daily_demand
    score := score
    rec_safety_stock := rec_ss
    rop := risk_adjusted_rop
    actual_lt := actual_lt
    variance := lt_variance }

/-- src/app.py line 156: the reliability tier encoded as a color.
Per the spec's tier mapping, "red" renders the "high risk" tier,
"orange" the "moderate risk" tier and "green" the "reliable" tier. -/
def color (score : α) : String :=
  if score < 60 then "red" else if score < 80 then "orange" else "green"

/-- src/app.py lines 208-210: the 30-day depletion projection,
`[max(0, stock - daily_demand * d) for d in range(30)]`, paired with
its day index as in `sim_df`. -/
def stock_flow (stock : α) (daily_demand : α) : List (ℕ × α) :=
  (List.range 30).map (fun d => (d, max 0 (stock - daily_demand * (d : α))))

/-- An upstream query failure, as caught by the `try/except` in
`analyze_risk` (src/app.py lines 74-82). -/
structure QueryError where
  msg : String
  deriving DecidableEq

/-- The per-record actual lead times computed by the SQL query of
`analyze_risk` (src/app.py lines 67-73): rows whose `ShippedDate` is
`NULL` are filtered out (`WHERE ... o.ShippedDate IS NOT NULL`), and
each remaining row contributes `date_diff('day', OrderDate, ShippedDate)`,
i.e. `shipped - order` with dates as day numbers. -/
def actualLeadTimes (rows : List ShipmentRecord) : List ℤ :=
  rows.filterMap (fun r => r.shipped.map (fun s => s - r.order))

/-- Pandas `Series.mean()` on the lead-time column (src/app.py line 78). -/
noncomputable def listMeanR (xs : List ℤ) : ℝ :=
  (xs.sum : ℝ) / (xs.length : ℝ)

/-- The sample variance underlying pandas `Series.std()` (default
`ddof=1`): `Σ (x - mean)² / (n - 1)`. -/
noncomputable def sampleVarR (xs : List ℤ) : ℝ :=
  ((xs.map (fun x => ((x : ℝ) - listMeanR xs) ^ 2)).sum) / ((xs.length : ℝ) - 1)

/-- Pandas `Series.std()` (src/app.py line 78): the sample standard
deviation, the square root of `sampleVarR`. -/
noncomputable def sampleStd (xs : List ℤ) : ℝ :=
  Real.sqrt (sampleVarR xs)

/-- src/app.py lines 63-82, `analyze_risk`. Its input is the outcome of
the shipment query, which can fail on malformed rows. On a failure the
`except` branch displays an error message in the UI and returns `None`
(lines 79-82); on success, an empty result set returns `None` (line 76)
and otherwise the mean and the sample standard deviation of the actual
lead times are returned, the latter replaced by 0 when there are fewer
than two rows (line 78). -/
noncomputable def analyze_risk (q : Except QueryError (List ShipmentRecord)) :
    Option (RiskData ℝ) :=
  match q with
  | .error _ => none
  | .ok rows =>
    if (actualLeadTimes rows).length = 0 then none
    else some { avg := listMeanR (actualLeadTimes rows)
                std := if 1 < (actualLeadTimes rows).length then
                         sampleStd (actualLeadTimes rows) else 0 }

/-- The data-access snapshot backing one dashboard run: the three
per-product queries of src/app.py (`get_product_details`, the shipment
query inside `analyze_risk`, and `get_demand_data`). Only the shipment
query is wrapped in `try/except` in the source, so only it is modelled
as fallible. -/
structure DB where
  details : ℤ → Option (Details ℝ)
  shipments : ℤ → Except QueryError (List ShipmentRecord)
  demand : ℤ → List (MonthlyDemand ℝ)

/-- The caller-visible outcome of one dashboard analysis run
(src/app.py lines 134-218): `unknownProduct` models the `TypeError`
raised at line 140 when `get_product_details` returned `None` (the
script aborts before rendering any metric or result), `insufficientData`
models the warning branch at lines 217-218, and `result` carries the
rendered `run_optimization` output of line 149. -/
inductive AnalyzeOutcome where
  | unknownProduct
  | insufficientData
  | result (res : OptimizationResult ℝ)

/-- The dashboard analysis pipeline for one selected product
(src/app.py lines 134-218): fetch the three queries, crash on a missing
product (line 140), then run the guard at line 148 — a result is
computed only when `analyze_risk` returned a summary and the demand
rows are non-empty. -/
noncomputable def analyze (db : DB) (pid : ℤ) : AnalyzeOutcome :=
  match db.details pid with
  | none => .unknownProduct
  | some details =>
    match analyze_risk (db.shipments pid) with
    | some risk =>
      if (db.demand pid).isEmpty then .insufficientData
      else .result (run_optimization (db.demand pid) risk details)
    | none => .insufficientData

/-- Scenario A / Scenario D demand rows: three months of 300 units,
so the daily demand rate is `(300 + 300 + 300) / 3 / 30 = 10`. -/
def salesA : List (MonthlyDemand ℚ) :=
  [⟨"2024-01", 300⟩, ⟨"2024-02", 300⟩, ⟨"2024-03", 300⟩]

/-- Concrete product details with a contracted lead time of 5 days. -/
def detD : Details ℚ := ⟨"Widget", 100, 50, 20, "Acme", 5⟩

/-- The same concrete product details over `ℝ`, for the pipeline. -/
noncomputable def detR : Details ℝ := ⟨"Widget", 100, 50, 20, "Acme", 5⟩

/-- A snapshot whose product exists but has no monthly demand rows
(Scenario E). -/
noncomputable def emptyDemandDb : DB :=
  { details := fun _ => some detR
    shipments := fun _ => Except.ok [⟨0, some 5⟩]
    demand := fun _ => [] }

/-- A snapshot with no products at all. -/
noncomputable def noProductDb : DB :=
  { details := fun _ => none
    shipments := fun _ => Except.ok []
    demand := fun _ => [] }

/-- A snapshot whose shipment query fails on a malformed source row. -/
noncomputable def failShipDb : DB :=
  { details := fun _ => some detR
    shipments := fun _ => Except.error ⟨"malformed source row"⟩
    demand := fun _ => [⟨"2024-01", 300⟩] }

/-- A snapshot whose shipment query succeeds but returns no rows. -/
noncomputable def emptyShipDb : DB :=
  { details := fun _ => some detR
    shipments := fun _ => Except.ok []
    demand := fun _ => [⟨"2024-01", 300⟩] }

/-- C1: every `OptimizationResult` produced by `run_optimization`
satisfies `risk_adjusted_reorder_point = daily_demand_rate *
actual_lead_time + recommended_safety_stock` exactly, where all three
values are the ones carried in the same result (identity law). -/
theorem rop_identity_law :
    ∀ (α : Type) [inst : LinearOrderedField α] [inst2 : FloorRing α]
      (sales : List (MonthlyDemand α)) (risk : RiskData α) (details : Details α),
      (run_optimization sales risk details).rop =
        (run_optimization sales risk details).daily_demand *
            (run_optimization sales risk details).actual_lt +
          ((run_optimization sales risk details).rec_safety_stock : α) := by
  intro α _ _ sales risk details
  rfl

/-- C2: for precondition-satisfying inputs (non-negative demand rate,
lead time and standard deviation), the recommended safety stock equals
`max(⌊dd * alt + 1.65 * std * dd⌋, ⌊dd * 2⌋)`, hence is never below
`⌊dd * 2⌋` (floor law); and the Scenario D inputs (daily demand 10,
actual lead time 8, stddev 2) yield exactly 113. -/
theorem rec_safety_stock_formula :
    (∀ (α : Type) [inst : LinearOrderedField α] [inst2 : FloorRing α]
       (sales : List (MonthlyDemand α)) (risk : RiskData α) (details : Details α),
       0 ≤ dailyDemand sales → 0 ≤ risk.avg → 0 ≤ risk.std →
       (run_optimization sales risk details).rec_safety_stock =
           max ⌊dailyDemand sales * risk.avg +
                  (165 : α) / 100 * risk.std * dailyDemand sales⌋
             ⌊dailyDemand sales * 2⌋ ∧
         ⌊dailyDemand sales * 2⌋ ≤ (run_optimization sales risk details).rec_safety_stock) ∧
      (run_optimization salesA ⟨8, 2⟩ detD).rec_safety_stock = 113 := by
  constructor
  · intro α _ _ sales risk details hdd havg hstd
    have harg : 0 ≤ dailyDemand sales * risk.avg +
        (165 : α) / 100 * risk.std * dailyDemand sales := by positivity
    have harg2 : 0 ≤ dailyDemand sales * 2 := by positivity
    constructor
    · simp only [run_optimization, pyInt, if_pos harg, if_pos harg2]
    · simp only [run_optimization, pyInt, if_pos harg, if_pos harg2]
      exact le_max_right _ _
  · norm_num [run_optimization, dailyDemand, pyInt, salesA, detD, Int.floor_ofNat]

/-- C2 witness: the general law of `rec_safety_stock_formula` applied at
the Scenario D inputs, whose preconditions hold concretely. -/
theorem rec_safety_stock_formula_witness :
    (run_optimization salesA (⟨8, 2⟩ : RiskData ℚ) detD).rec_safety_stock =
        max ⌊dailyDemand salesA * (8 : ℚ) + (165 : ℚ) / 100 * 2 * dailyDemand salesA⌋
          ⌊dailyDemand salesA * 2⌋ ∧
      ⌊dailyDemand salesA * 2⌋ ≤ (run_optimization salesA (⟨8, 2⟩ : RiskData ℚ) detD).rec_safety_stock :=
  rec_safety_stock_formula.1 ℚ salesA ⟨8, 2⟩ detD
    (by norm_num [dailyDemand, salesA]) (by norm_num) (by norm_num)

/-- C3: the reliability score is computed with exactly the constants of
src/app.py lines 104-106 — `max(0, actual_lt - contract_lt) * 10` as
delay penalty, `std * 5` as variance penalty, and
`max(0, 100 - (delay + variance))` as score — and whenever the standard
deviation is non-negative (so both penalties are non-negative) the
score lies in `[0, 100]` (clamp law). -/
theorem reliability_score_spec :
    (∀ (α : Type) [inst : LinearOrderedField α] [inst2 : FloorRing α]
       (sales : List (MonthlyDemand α)) (risk : RiskData α) (details : Details α),
       (run_optimization sales risk details).score =
         max 0 (100 - (max 0 (risk.avg - details.contract_lead_time) * 10 + risk.std * 5))) ∧
    (∀ (α : Type) [inst : LinearOrderedField α] [inst2 : FloorRing α]
       (sales : List (MonthlyDemand α)) (risk : RiskData α) (details : Details α),
       0 ≤ risk.std →
       0 ≤ (run_optimization sales risk details).score ∧
         (run_optimization sales risk details).score ≤ 100) := by
  constructor
  · intro α _ _ sales risk details
    rfl
  · intro α _ _ sales risk details hstd
    have hpen : 0 ≤ max 0 (risk.avg - details.contract_lead_time) * 10 + risk.std * 5 := by
      have h1 : (0 : α) ≤ max 0 (risk.avg - details.contract_lead_time) := le_max_left _ _
      positivity
    constructor
    · exact le_max_left _ _
    · show max 0 (100 - (max 0 (risk.avg - details.contract_lead_time) * 10 + risk.std * 5)) ≤ 100
      apply max_le (by norm_num)
      linarith

/-- C3 witness: the clamp law applied at Scenario B inputs (contracted
lead time 5, actual 5, stddev 0), where the precondition `0 ≤ std`
holds concretely. -/
theorem reliability_score_spec_witness :
    (0 : ℚ) ≤ 0 ∧
      0 ≤ (run_optimization salesA (⟨5, 0⟩ : RiskData ℚ) detD).score ∧
        (run_optimization salesA (⟨5, 0⟩ : RiskData ℚ) detD).score ≤ 100 :=
  ⟨le_rfl, reliability_score_spec.2 ℚ salesA ⟨5, 0⟩ detD le_rfl⟩

/-- C4: for non-empty demand rows the daily demand rate is the
arithmetic mean of the row quantities divided by 30; it is invariant
under any permutation of the rows (even with the other inputs varied);
and the Scenario A rows (300, 300, 300) give exactly 10. -/
theorem daily_demand_mean_spec :
    (∀ (α : Type) [inst : LinearOrderedField α] [inst2 : FloorRing α]
       (sales : List (MonthlyDemand α)) (risk : RiskData α) (details : Details α),
       sales ≠ [] →
       (run_optimization sales risk details).daily_demand =
         ((sales.map (fun r => r.qty)).sum / (sales.length : α)) / 30) ∧
    (∀ (α : Type) [inst : LinearOrderedField α] [inst2 : FloorRing α]
       (sales sales' : List (MonthlyDemand α)) (risk risk' : RiskData α)
       (details details' : Details α),
       sales.Perm sales' →
       (run_optimization sales risk details).daily_demand =
         (run_optimization sales' risk' details').daily_demand) ∧
      (run_optimization salesA (⟨8, 2⟩ : RiskData ℚ) detD).daily_demand = 10 := by
  refine ⟨?_, ?_, ?_⟩
  · intro α _ _ sales risk details _
    rfl
  · intro α _ _ sales sales' risk risk' details details' hperm
    show dailyDemand sales = dailyDemand sales'
    unfold dailyDemand
    rw [(hperm.map (fun r => r.qty)).sum_eq, hperm.length_eq]
  · norm_num [run_optimization, dailyDemand, salesA]

/-- C4 witness: the mean formula and the permutation invariance applied
at the Scenario A rows and their reversal, with the hypotheses
discharged concretely. -/
theorem daily_demand_mean_spec_witness :
    (run_optimization salesA (⟨8, 2⟩ : RiskData ℚ) detD).daily_demand =
        ((salesA.map (fun r => r.qty)).sum / (salesA.length : ℚ)) / 30 ∧
      (run_optimization salesA (⟨8, 2⟩ : RiskData ℚ) detD).daily_demand =
        (run_optimization salesA.reverse (⟨5, 0⟩ : RiskData ℚ) detD).daily_demand :=
  ⟨daily_demand_mean_spec.1 ℚ salesA ⟨8, 2⟩ detD (by simp [salesA]),
   daily_demand_mean_spec.2.1 ℚ salesA salesA.reverse ⟨8, 2⟩ ⟨5, 0⟩ detD detD
     (salesA.reverse_perm).symm⟩

/-- C5: the reliability analysis filters shipment records to those with
a present shipped date and takes each actual lead time to be
`shipped - order` in whole days (`actualLeadTimes`); on a successful
query it returns the mean of these deltas together with their sample
standard deviation when at least two remain, a standard deviation of
exactly 0 when exactly one remains, and no summary at all when none
remain. -/
theorem analyze_risk_case_spec :
    ∀ rows : List ShipmentRecord,
      (actualLeadTimes rows = [] → analyze_risk (Except.ok rows) = none) ∧
      ((actualLeadTimes rows).length = 1 →
        analyze_risk (Except.ok rows) =
          some { avg := listMeanR (actualLeadTimes rows), std := 0 }) ∧
      (2 ≤ (actualLeadTimes rows).length →
        analyze_risk (Except.ok rows) =
          some { avg := listMeanR (actualLeadTimes rows)
                 std := sampleStd (actualLeadTimes rows) }) := by
  intro rows
  refine ⟨?_, ?_, ?_⟩
  · intro h
    simp [analyze_risk, h]
  · intro h
    simp [analyze_risk, h]
  · intro h
    have h0 : ¬ (actualLeadTimes rows).length = 0 := by omega
    have h1 : 1 < (actualLeadTimes rows).length := by omega
    simp [analyze_risk, h0, h1]

/-- C5 witness: the three cases of `analyze_risk_case_spec` applied to
concrete shipment lists with zero, one and two delivered records. -/
theorem analyze_risk_case_spec_witness :
    analyze_risk (Except.ok [⟨0, none⟩]) = none ∧
      analyze_risk (Except.ok [⟨0, some 7⟩]) =
        some { avg := listMeanR (actualLeadTimes [⟨0, some 7⟩]), std := 0 } ∧
      analyze_risk (Except.ok [⟨0, some 5⟩, ⟨10, some 15⟩]) =
        some { avg := listMeanR (actualLeadTimes [⟨0, some 5⟩, ⟨10, some 15⟩])
               std := sampleStd (actualLeadTimes [⟨0, some 5⟩, ⟨10, some 15⟩]) } :=
  ⟨(analyze_risk_case_spec [⟨0, none⟩]).1 rfl,
   (analyze_risk_case_spec [⟨0, some 7⟩]).2.1 (by decide),
   (analyze_risk_case_spec [⟨0, some 5⟩, ⟨10, some 15⟩]).2.2 (by decide)⟩

/-- C9: the projection is exactly the 30 pairs
`(day, max(0, stock - daily_demand * day))` for days 0 through 29 in
increasing day order, with no other terms. -/
theorem stock_flow_spec :
    ∀ (α : Type) [inst : LinearOrderedField α] (stock daily_demand : α),
      (stock_flow stock daily_demand).length = 30 ∧
      ∀ d : ℕ, d < 30 →
        (stock_flow stock daily_demand)[d]? =
          some (d, max 0 (stock - daily_demand * (d : α))) := by
  intro α _ stock daily_demand
  constructor
  · simp [stock_flow]
  · intro d hd
    simp [stock_flow, List.getElem?_map, List.getElem?_range, hd]

/-- C9 witness: `stock_flow_spec` applied at stock 100 and daily demand
10 over `ℚ`, inspecting day 5. -/
theorem stock_flow_spec_witness :
    (stock_flow (100 : ℚ) 10).length = 30 ∧
      (stock_flow (100 : ℚ) 10)[5]? = some (5, max 0 (100 - 10 * ((5 : ℕ) : ℚ))) :=
  ⟨(stock_flow_spec ℚ 100 10).1, (stock_flow_spec ℚ 100 10).2 5 (by norm_num)⟩

/-- C10: the reliability tier of src/app.py line 156 — scores below 60
render "red" (the high-risk tier), scores in `[60, 80)` render "orange"
(the moderate-risk tier), and scores of 80 and above render "green"
(the reliable tier); in particular a score of exactly 60 is moderate,
not high risk, and exactly 80 is reliable. -/
theorem color_tier_spec :
    ∀ (α : Type) [inst : LinearOrderedField α] (score : α),
      (score < 60 → color score = "red") ∧
      (60 ≤ score → score < 80 → color score = "orange") ∧
      (80 ≤ score → color score = "green") := by
  intro α _ score
  refine ⟨?_, ?_, ?_⟩
  · intro h
    simp [color, h]
  · intro h1 h2
    rw [color, if_neg (not_lt.mpr h1), if_pos h2]
  · intro h
    rw [color, if_neg (by linarith), if_neg (by linarith)]

/-- C10 witness: the boundary scores 60 and 80 over `ℚ`. -/
theorem color_tier_spec_witness :
    color (60 : ℚ) = "orange" ∧ color (80 : ℚ) = "green" :=
  ⟨(color_tier_spec ℚ 60).2.1 le_rfl (by norm_num), (color_tier_spec ℚ 80).2.2 le_rfl⟩

/-- C6: whenever the selected product exists but its monthly demand
rows are empty or its delivered-only (filtered) shipment history is
empty, the analysis run ends in the distinct insufficient-data outcome:
no `OptimizationResult` is produced, the optimization arithmetic is
never reached, and the outcome is inspectably different from both the
success outcome and the unknown-product outcome. -/
theorem analyze_insufficient_spec :
    ∀ (db : DB) (pid : ℤ) (d : Details ℝ), db.details pid = some d →
      (db.demand pid = [] ∨
        ∃ rows, db.shipments pid = Except.ok rows ∧ actualLeadTimes rows = []) →
      analyze db pid = AnalyzeOutcome.insufficientData ∧
        (∀ res, AnalyzeOutcome.insufficientData ≠ AnalyzeOutcome.result res) ∧
        AnalyzeOutcome.insufficientData ≠ AnalyzeOutcome.unknownProduct := by
  intro db pid d hd hcase
  refine ⟨?_, ?_, ?_⟩
  · rcases hcase with hdem | ⟨rows, hrows, hdeltas⟩
    · cases hrisk : analyze_risk (db.shipments pid) with
      | none => simp [analyze, hd, hrisk]
      | some risk => simp [analyze, hd, hrisk, hdem]
    · have hrisk : analyze_risk (db.shipments pid) = none := by
        rw [hrows]
        exact (analyze_risk_case_spec rows).1 hdeltas
      simp [analyze, hd, hrisk]
  · intro res h
    cases h
  · intro h
    cases h

/-- C6 witness: Scenario E — a snapshot whose product exists and has
delivered shipments but no monthly demand rows ends in the
insufficient-data outcome. -/
theorem analyze_insufficient_spec_witness :
    analyze emptyDemandDb 1 = AnalyzeOutcome.insufficientData ∧
      (∀ res, AnalyzeOutcome.insufficientData ≠ AnalyzeOutcome.result res) ∧
      AnalyzeOutcome.insufficientData ≠ AnalyzeOutcome.unknownProduct :=
  analyze_insufficient_spec emptyDemandDb 1 detR rfl (Or.inl rfl)

/-- C7: when the selected product id is not in the data-access
snapshot, the run fails with the distinct unknown-product outcome — it
aborts before rendering anything, so no partial result, no metrics and
no optimization output are produced, and the outcome differs from both
the success and the insufficient-data outcomes. -/
theorem analyze_unknown_product_spec :
    ∀ (db : DB) (pid : ℤ), db.details pid = none →
      analyze db pid = AnalyzeOutcome.unknownProduct ∧
        (∀ res, AnalyzeOutcome.unknownProduct ≠ AnalyzeOutcome.result res) ∧
        AnalyzeOutcome.unknownProduct ≠ AnalyzeOutcome.insufficientData := by
  intro db pid hd
  refine ⟨by simp [analyze, hd], ?_, ?_⟩
  · intro res h
    cases h
  · intro h
    cases h

/-- C7 witness: a snapshot with no products fails with the
unknown-product outcome for product id 7. -/
theorem analyze_unknown_product_spec_witness :
    analyze noProductDb 7 = AnalyzeOutcome.unknownProduct ∧
      (∀ res, AnalyzeOutcome.unknownProduct ≠ AnalyzeOutcome.result res) ∧
      AnalyzeOutcome.unknownProduct ≠ AnalyzeOutcome.insufficientData :=
  analyze_unknown_product_spec noProductDb 7 rfl

/-- C8 counterexample: an upstream shipment-query failure is NOT
propagated as a failure kind distinct from insufficient history. The
`except` branch of `analyze_risk` (src/app.py lines 79-82) returns
`None`, so a snapshot whose shipment query fails on a malformed source
row ends in exactly the same insufficient-data outcome as a snapshot
whose shipment history is merely empty. -/
theorem query_error_not_distinct_counterexample :
    analyze_risk (Except.error ⟨"malformed source row"⟩) = none ∧
      analyze failShipDb 1 = AnalyzeOutcome.insufficientData ∧
      analyze emptyShipDb 1 = AnalyzeOutcome.insufficientData ∧
      analyze failShipDb 1 = analyze emptyShipDb 1 := by
  refine ⟨rfl, ?_, ?_, ?_⟩ <;> rfl

/-- C8 as amended: an upstream query error in the shipment query is
caught inside `analyze_risk`, which displays an error message and
returns `None`; the caller therefore takes the same insufficient-data
branch as for an empty history, so the analysis outcome is the
insufficient-data outcome, not a distinct data-access failure kind.
The query is issued once; no retry is performed. -/
theorem query_error_to_insufficient :
    ∀ (db : DB) (pid : ℤ) (d : Details ℝ) (e : QueryError),
      db.details pid = some d → db.shipments pid = Except.error e →
      analyze_risk (db.shipments pid) = none ∧
        analyze db pid = AnalyzeOutcome.insufficientData := by
  intro db pid d e hd he
  have hrisk : analyze_risk (db.shipments pid) = none := by
    rw [he]
    rfl
  exact ⟨hrisk, by simp [analyze, hd, hrisk]⟩

/-- C8 witness: the amended statement applied to the concrete snapshot
whose shipment query fails on a malformed source row. -/
theorem query_error_to_insufficient_witness :
    analyze_risk (failShipDb.shipments 1) = none ∧
      analyze failShipDb 1 = AnalyzeOutcome.insufficientData :=
  query_error_to_insufficient failShipDb 1 detR ⟨"malformed source row"⟩ rfl rfl

end SCM
